import Mathlib

/-!
Verification of the wallet / withdrawal / delivery-fee core of the
sareeone3 food-delivery backend.

The HTTP route handlers are embedded from `src/server/routes/advanced.ts`
(registerAdvancedRoutes). The persistence layer `AdvancedDatabaseStorage`
(`server/db-advanced.ts`), the ledger settlement and the delivery-fee
calculator are not present under `src/`; those operations are modelled from
the specification (spec.md §3, §4.3, §4.4, §4.5) and are marked
`Modelled from the spec:` in their doc comments. Money amounts are embedded
as rationals (the store uses fixed-point `decimal(10,2)` columns; no float
rounding is modelled).
-/

namespace Sareeone

/-- A withdrawal request row, following the `withdrawal_requests` table of
the schema (entityType, entityId, amount, status, bank details, approver,
rejection reason). -/
structure WithdrawalRequest where
  entityType : String
  entityId : String
  amount : ℚ
  status : String
  accountNumber : String
  bankName : String
  accountHolder : String
  requestedBy : String
  approvedBy : Option String
  rejectionReason : Option String
deriving DecidableEq, Repr

/-- Server-side persistent state touched by the advanced routes: driver
wallet balances, restaurant wallet balances (wallets are created lazily, a
never-touched wallet reads as balance 0, matching the route expression
`parseFloat(wallet?.balance?.toString() || "0")`), the withdrawal-request
table, a fresh-id counter for inserts, the platform commission accrual and
the set of already-settled order ids used by the ledger. -/
structure ServerState where
  driverBalance : String → ℚ
  restaurantBalance : String → ℚ
  requests : String → Option WithdrawalRequest
  nextId : Nat
  companyBalance : ℚ
  settledOrders : List String

/-- An HTTP response as far as the claims observe it: status code and the
optional error message of the JSON body. -/
structure HttpResponse where
  status : Nat
  error : Option String
deriving DecidableEq, Repr

/-- Request body of `POST /api/withdrawal-requests`. The amount is an
`Option` because the JS handler guards `!amount || amount <= 0`. -/
structure WithdrawalBody where
  entityType : String
  entityId : String
  amount : Option ℚ
  accountNumber : String
  bankName : String
  accountHolder : String
  requestedBy : String
deriving DecidableEq, Repr

/-- Modelled from the spec: `AdvancedDatabaseStorage.addDriverWalletBalance`
(server/db-advanced.ts, not under src/). Per spec.md §3 the wallet is
created lazily on first balance operation and the amount is credited to the
balance. -/
def addDriverWalletBalance (driverId : String) (amount : ℚ) (s : ServerState) : ServerState :=
  { s with driverBalance :=
      Function.update s.driverBalance driverId (s.driverBalance driverId + amount) }

/-- Modelled from the spec:
`AdvancedDatabaseStorage.deductDriverWalletBalance` (server/db-advanced.ts,
not under src/). Per spec.md §4.5 the debit re-checks balance ≥ amount and
fails with InsufficientBalance otherwise. -/
def deductDriverWalletBalance (driverId : String) (amount : ℚ) (s : ServerState) :
    Except String ServerState :=
  if s.driverBalance driverId < amount then .error "Insufficient balance"
  else .ok { s with driverBalance :=
      Function.update s.driverBalance driverId (s.driverBalance driverId - amount) }

/-- Modelled from the spec:
`AdvancedDatabaseStorage.deductRestaurantWalletBalance`
(server/db-advanced.ts, not under src/), same contract as the driver
debit. -/
def deductRestaurantWalletBalance (restaurantId : String) (amount : ℚ) (s : ServerState) :
    Except String ServerState :=
  if s.restaurantBalance restaurantId < amount then .error "Insufficient balance"
  else .ok { s with
    restaurantBalance :=
      Function.update s.restaurantBalance restaurantId
        (s.restaurantBalance restaurantId - amount) }

/-- Fresh id the store assigns to the next inserted withdrawal request. -/
def freshRequestId (s : ServerState) : String :=
  "wr-" ++ toString s.nextId

/-- Modelled from the spec:
`AdvancedDatabaseStorage.createWithdrawalRequest` (server/db-advanced.ts,
not under src/): inserts a new withdrawal-request row with the fields the
route passes and the given status, returning the id of the created row. -/
def createWithdrawalRequest (b : WithdrawalBody) (a : ℚ) (s : ServerState) :
    String × ServerState :=
  let id := freshRequestId s
  (id, { s with
    requests := Function.update s.requests id (some {
      entityType := b.entityType
      entityId := b.entityId
      amount := a
      status := "pending"
      accountNumber := b.accountNumber
      bankName := b.bankName
      accountHolder := b.accountHolder
      requestedBy := b.requestedBy
      approvedBy := none
      rejectionReason := none })
    nextId := s.nextId + 1 })

/-- Modelled from the spec:
`AdvancedDatabaseStorage.approveWithdrawalRequest` (server/db-advanced.ts,
not under src/). Per spec.md §4.5 the state machine is
pending → {approved, rejected} with no further transitions from a terminal
state: an unknown id fails with NotFound and a non-pending request admits
no transition. On success the row is marked approved with the approver
recorded, and the updated row is returned. -/
def approveWithdrawalRequest (requestId approvedBy : String) (s : ServerState) :
    Except String (WithdrawalRequest × ServerState) :=
  match s.requests requestId with
  | none => .error "Request not found"
  | some req =>
    if req.status = "pending" then
      let req' := { req with status := "approved", approvedBy := some approvedBy }
      .ok (req', { s with requests := Function.update s.requests requestId (some req') })
    else .error "Request already processed"

/-- Modelled from the spec:
`AdvancedDatabaseStorage.rejectWithdrawalRequest` (server/db-advanced.ts,
not under src/). Per spec.md §4.5 reject marks a pending request rejected
and records the reason; no balance is touched and terminal states admit no
transition. -/
def rejectWithdrawalRequest (requestId reason : String) (s : ServerState) :
    Except String (WithdrawalRequest × ServerState) :=
  match s.requests requestId with
  | none => .error "Request not found"
  | some req =>
    if req.status = "pending" then
      let req' := { req with status := "rejected", rejectionReason := some reason }
      .ok (req', { s with requests := Function.update s.requests requestId (some req') })
    else .error "Request already processed"

/-- Handler of `POST /api/drivers/:driverId/wallet/add-balance`
(src/server/routes/advanced.ts lines 243-257): rejects a missing or
non-positive amount with 400 "Invalid amount", otherwise credits the
driver wallet and answers 200. -/
def addBalanceHandler (driverId : String) (amount : Option ℚ) (s : ServerState) :
    HttpResponse × ServerState :=
  match amount with
  | none => ({ status := 400, error := some "Invalid amount" }, s)
  | some a =>
    if a ≤ 0 then ({ status := 400, error := some "Invalid amount" }, s)
    else ({ status := 200, error := none }, addDriverWalletBalance driverId a s)

/-- Handler of `POST /api/withdrawal-requests` (src/server/routes/advanced.ts lines
278-317): rejects a missing or non-positive amount with 400; for
entityType driver or restaurant checks the wallet balance (a missing
wallet reads as 0) and answers 400 "Insufficient balance" when
balance < amount; otherwise — including for any other entityType, where
the balance check is skipped — inserts a pending request and answers
201. -/
def createWithdrawalHandler (b : WithdrawalBody) (s : ServerState) :
    HttpResponse × ServerState :=
  match b.amount with
  | none => ({ status := 400, error := some "Invalid amount" }, s)
  | some a =>
    if a ≤ 0 then ({ status := 400, error := some "Invalid amount" }, s)
    else if b.entityType = "driver" then
      if s.driverBalance b.entityId < a then
        ({ status := 400, error := some "Insufficient balance" }, s)
      else ({ status := 201, error := none }, (createWithdrawalRequest b a s).2)
    else if b.entityType = "restaurant" then
      if s.restaurantBalance b.entityId < a then
        ({ status := 400, error := some "Insufficient balance" }, s)
      else ({ status := 201, error := none }, (createWithdrawalRequest b a s).2)
    else ({ status := 201, error := none }, (createWithdrawalRequest b a s).2)

/-- Handler of `POST /api/admin/withdrawal-requests/:requestId/approve`
(src/server/routes/advanced.ts lines 320-345): first marks the request
approved via the store, then — only afterwards — debits the matching
wallet; any store error surfaces as 500, and a debit failure leaves the
request already marked approved (no rollback in the handler). -/
def approveHandler (requestId approvedBy : String) (s : ServerState) :
    HttpResponse × ServerState :=
  match approveWithdrawalRequest requestId approvedBy s with
  | .error e => ({ status := 500, error := some e }, s)
  | .ok (req, s1) =>
    if req.entityType = "driver" then
      match deductDriverWalletBalance req.entityId req.amount s1 with
      | .error e => ({ status := 500, error := some e }, s1)
      | .ok s2 => ({ status := 200, error := none }, s2)
    else if req.entityType = "restaurant" then
      match deductRestaurantWalletBalance req.entityId req.amount s1 with
      | .error e => ({ status := 500, error := some e }, s1)
      | .ok s2 => ({ status := 200, error := none }, s2)
    else ({ status := 200, error := none }, s1)

/-- Handler of `POST /api/admin/withdrawal-requests/:requestId/reject`
(src/server/routes/advanced.ts lines 348-358): delegates to the store
reject and answers 200, or 500 on a store error; no wallet is touched. -/
def rejectHandler (requestId reason : String) (s : ServerState) :
    HttpResponse × ServerState :=
  match rejectWithdrawalRequest requestId reason s with
  | .error _ => ({ status := 500, error := some "Failed to reject withdrawal request" }, s)
  | .ok (_, s') => ({ status := 200, error := none }, s')

/-- Wallet balance of an entity as the withdrawal routes read it:
driver wallet for entityType "driver", restaurant wallet for
"restaurant", and 0 (no wallet consulted) otherwise. -/
def entityBalance (s : ServerState) (ty id : String) : ℚ :=
  if ty = "driver" then s.driverBalance id
  else if ty = "restaurant" then s.restaurantBalance id
  else 0

/-- One wallet-mutating public operation of the advanced routes. -/
inductive WalletOp where
  | addBalance (driverId : String) (amount : Option ℚ)
  | createWithdrawal (body : WithdrawalBody)
  | approve (requestId approvedBy : String)
  | reject (requestId reason : String)

/-- State effect of one operation (the HTTP response is dropped). -/
def applyOp (op : WalletOp) (s : ServerState) : ServerState :=
  match op with
  | .addBalance d a => (addBalanceHandler d a s).2
  | .createWithdrawal b => (createWithdrawalHandler b s).2
  | .approve rid ab => (approveHandler rid ab s).2
  | .reject rid r => (rejectHandler rid r s).2

/-- State after a sequence of operations, applied left to right. -/
def applyOps (ops : List WalletOp) (s : ServerState) : ServerState :=
  ops.foldl (fun t op => applyOp op t) s

/-- Every driver wallet and every restaurant wallet has a non-negative
balance. -/
def WalletsNonneg (s : ServerState) : Prop :=
  (∀ d, 0 ≤ s.driverBalance d) ∧ (∀ r, 0 ≤ s.restaurantBalance r)

/-- The financial fields of a completed order the ledger needs: the money
split plus the two commission rates (percentages). -/
structure Order where
  id : String
  restaurantId : String
  driverId : String
  subtotal : ℚ
  deliveryFee : ℚ
  restaurantCommissionPercent : ℚ
  driverCommissionPercent : ℚ
deriving DecidableEq, Repr

/-- Outcome of a settlement attempt. -/
inductive SettleResult where
  | settled
  | alreadySettled
deriving DecidableEq, Repr

/-- Modelled from the spec: `LedgerService.settleOrder` (spec.md §4.4; the
ledger implementation is not under src/). Idempotency key is the order id:
re-invocation for an already-settled order is a no-op signalled
AlreadySettled. Otherwise companyEarnings = subtotal · rate/100,
restaurantEarnings = subtotal − companyEarnings, driverEarnings =
deliveryFee · driverRate/100 with the remainder of the fee accruing to the
company; both wallet credits and the company accrual happen together. -/
def settleOrder (o : Order) (s : ServerState) : SettleResult × ServerState :=
  if o.id ∈ s.settledOrders then (.alreadySettled, s)
  else
    let companyEarnings := o.subtotal * o.restaurantCommissionPercent / 100
    let restaurantEarnings := o.subtotal - companyEarnings
    let driverEarnings := o.deliveryFee * o.driverCommissionPercent / 100
    let companyFromFee := o.deliveryFee - driverEarnings
    (.settled, { s with
      restaurantBalance :=
        Function.update s.restaurantBalance o.restaurantId
          (s.restaurantBalance o.restaurantId + restaurantEarnings)
      driverBalance :=
        Function.update s.driverBalance o.driverId
          (s.driverBalance o.driverId + driverEarnings)
      companyBalance := s.companyBalance + companyEarnings + companyFromFee
      settledOrders := o.id :: s.settledOrders })

/-- A resolved delivery-fee setting (delivery_fee_settings table of the
schema): base fee, per-km fee, min/max fee, free-delivery threshold. -/
structure FeeSetting where
  baseFee : ℚ
  perKmFee : ℚ
  minFee : ℚ
  maxFee : ℚ
  freeDeliveryThreshold : ℚ
deriving DecidableEq, Repr

/-- A delivery zone (delivery_zones table): distance band
[minDistance, maxDistance), fee and estimated-time label. -/
structure DeliveryZone where
  name : String
  minDistance : ℚ
  maxDistance : ℚ
  deliveryFee : ℚ
  estimatedTime : String
  isActive : Bool
deriving DecidableEq, Repr

/-- A computed fee quote: billed fee, originally computed fee retained for
display, distance, estimated time, free-delivery flag and reason. -/
structure FeeQuote where
  success : Bool
  fee : ℚ
  displayFee : ℚ
  distance : ℚ
  estimatedTime : String
  isFreeDelivery : Bool
  freeDeliveryReason : Option String
deriving DecidableEq, Repr

/-- Clamp of the raw fee into [minFee, maxFee]. -/
def clampFee (raw minF maxF : ℚ) : ℚ :=
  max minF (min raw maxF)

/-- Estimated time from the first active zone whose band contains the
distance, else a flat default (spec.md §4.3 step 6, §9). -/
def estimatedTimeFor (d : ℚ) (zones : List DeliveryZone) : String :=
  match zones.find? (fun z =>
      z.isActive && decide (z.minDistance ≤ d) && decide (d < z.maxDistance)) with
  | some z => z.estimatedTime
  | none => "30-45 min"

/-- Modelled from the spec: `DeliveryFeeCalculator.calculate` (spec.md
§4.3; the calculator implementation is not under src/). The distance is
taken as already computed by GeoDistance. rawFee = base + distance · perKm,
clamped into [min, max]; if freeDeliveryThreshold > 0 and
subtotal ≥ threshold the quote is free: billed fee 0, the original fee
retained for display, reason populated. -/
def calculateDeliveryFee (distance : ℚ) (setting : FeeSetting)
    (zones : List DeliveryZone) (subtotal : ℚ) : FeeQuote :=
  let fee := clampFee (setting.baseFee + distance * setting.perKmFee)
    setting.minFee setting.maxFee
  let eta := estimatedTimeFor distance zones
  if 0 < setting.freeDeliveryThreshold ∧ setting.freeDeliveryThreshold ≤ subtotal then
    { success := true, fee := 0, displayFee := fee, distance := distance
      estimatedTime := eta, isFreeDelivery := true
      freeDeliveryReason := some "order total reached the free delivery threshold" }
  else
    { success := true, fee := fee, displayFee := fee, distance := distance
      estimatedTime := eta, isFreeDelivery := false, freeDeliveryReason := none }

lemma approveWithdrawalRequest_balances {requestId approvedBy : String} {s : ServerState}
    {req : WithdrawalRequest} {s1 : ServerState}
    (h : approveWithdrawalRequest requestId approvedBy s = .ok (req, s1)) :
    s1.driverBalance = s.driverBalance ∧ s1.restaurantBalance = s.restaurantBalance := by
  unfold approveWithdrawalRequest at h
  split at h
  · simp at h
  · split at h
    · simp only [Except.ok.injEq, Prod.mk.injEq] at h
      rw [← h.2]
      exact ⟨rfl, rfl⟩
    · simp at h

lemma rejectWithdrawalRequest_balances {requestId reason : String} {s : ServerState}
    {req : WithdrawalRequest} {s1 : ServerState}
    (h : rejectWithdrawalRequest requestId reason s = .ok (req, s1)) :
    s1.driverBalance = s.driverBalance ∧ s1.restaurantBalance = s.restaurantBalance := by
  unfold rejectWithdrawalRequest at h
  split at h
  · simp at h
  · split at h
    · simp only [Except.ok.injEq, Prod.mk.injEq] at h
      rw [← h.2]
      exact ⟨rfl, rfl⟩
    · simp at h

lemma createWithdrawalHandler_balances (b : WithdrawalBody) (s : ServerState) :
    (createWithdrawalHandler b s).2.driverBalance = s.driverBalance ∧
    (createWithdrawalHandler b s).2.restaurantBalance = s.restaurantBalance := by
  unfold createWithdrawalHandler
  cases b.amount with
  | none => exact ⟨rfl, rfl⟩
  | some a =>
    simp only
    split
    · exact ⟨rfl, rfl⟩
    · split
      · split
        · exact ⟨rfl, rfl⟩
        · exact ⟨rfl, rfl⟩
      · split
        · split
          · exact ⟨rfl, rfl⟩
          · exact ⟨rfl, rfl⟩
        · exact ⟨rfl, rfl⟩

lemma rejectHandler_balances (requestId reason : String) (s : ServerState) :
    (rejectHandler requestId reason s).2.driverBalance = s.driverBalance ∧
    (rejectHandler requestId reason s).2.restaurantBalance = s.restaurantBalance := by
  unfold rejectHandler
  cases hr : rejectWithdrawalRequest requestId reason s with
  | error e => exact ⟨rfl, rfl⟩
  | ok p =>
    obtain ⟨req, s'⟩ := p
    exact rejectWithdrawalRequest_balances hr

lemma walletsNonneg_addBalanceHandler (d : String) (a : Option ℚ) (s : ServerState)
    (h : WalletsNonneg s) : WalletsNonneg (addBalanceHandler d a s).2 := by
  unfold addBalanceHandler addDriverWalletBalance
  cases a with
  | none => exact h
  | some x =>
    by_cases hx : x ≤ 0
    · simp only [if_pos hx]
      exact h
    · simp only [if_neg hx]
      refine ⟨fun y => ?_, h.2⟩
      dsimp only
      by_cases hy : y = d
      · subst hy
        rw [Function.update_same]
        have h0 := h.1 y
        have h1 : 0 < x := not_le.mp hx
        linarith
      · rw [Function.update_noteq hy]
        exact h.1 y

lemma walletsNonneg_deductDriver {d : String} {a : ℚ} {s s' : ServerState}
    (h : deductDriverWalletBalance d a s = .ok s') (hn : WalletsNonneg s) :
    WalletsNonneg s' := by
  by_cases hc : s.driverBalance d < a
  · unfold deductDriverWalletBalance at h
    rw [if_pos hc] at h
    simp at h
  · unfold deductDriverWalletBalance at h
    rw [if_neg hc] at h
    simp only [Except.ok.injEq] at h
    subst h
    refine ⟨fun y => ?_, hn.2⟩
    dsimp only
    by_cases hy : y = d
    · subst hy
      rw [Function.update_same]
      have := not_lt.mp hc
      linarith
    · rw [Function.update_noteq hy]
      exact hn.1 y

lemma walletsNonneg_deductRestaurant {r : String} {a : ℚ} {s s' : ServerState}
    (h : deductRestaurantWalletBalance r a s = .ok s') (hn : WalletsNonneg s) :
    WalletsNonneg s' := by
  by_cases hc : s.restaurantBalance r < a
  · unfold deductRestaurantWalletBalance at h
    rw [if_pos hc] at h
    simp at h
  · unfold deductRestaurantWalletBalance at h
    rw [if_neg hc] at h
    simp only [Except.ok.injEq] at h
    subst h
    refine ⟨hn.1, fun y => ?_⟩
    dsimp only
    by_cases hy : y = r
    · subst hy
      rw [Function.update_same]
      have := not_lt.mp hc
      linarith
    · rw [Function.update_noteq hy]
      exact hn.2 y

lemma walletsNonneg_approveHandler (requestId approvedBy : String) (s : ServerState)
    (h : WalletsNonneg s) : WalletsNonneg (approveHandler requestId approvedBy s).2 := by
  unfold approveHandler
  cases ha : approveWithdrawalRequest requestId approvedBy s with
  | error e => exact h
  | ok p =>
    obtain ⟨req, s1⟩ := p
    obtain ⟨hb1, hb2⟩ := approveWithdrawalRequest_balances ha
    have h1 : WalletsNonneg s1 := ⟨by rw [hb1]; exact h.1, by rw [hb2]; exact h.2⟩
    simp only
    split
    · cases hd : deductDriverWalletBalance req.entityId req.amount s1 with
      | error e => exact h1
      | ok s2 => exact walletsNonneg_deductDriver hd h1
    · split
      · cases hd : deductRestaurantWalletBalance req.entityId req.amount s1 with
        | error e => exact h1
        | ok s2 => exact walletsNonneg_deductRestaurant hd h1
      · exact h1

lemma walletsNonneg_applyOp (op : WalletOp) (s : ServerState) (h : WalletsNonneg s) :
    WalletsNonneg (applyOp op s) := by
  cases op with
  | addBalance d a => exact walletsNonneg_addBalanceHandler d a s h
  | createWithdrawal b =>
    obtain ⟨h1, h2⟩ := createWithdrawalHandler_balances b s
    exact ⟨by rw [show (applyOp (.createWithdrawal b) s).driverBalance
        = (createWithdrawalHandler b s).2.driverBalance from rfl, h1]; exact h.1,
      by rw [show (applyOp (.createWithdrawal b) s).restaurantBalance
        = (createWithdrawalHandler b s).2.restaurantBalance from rfl, h2]; exact h.2⟩
  | approve rid ab => exact walletsNonneg_approveHandler rid ab s h
  | reject rid r =>
    obtain ⟨h1, h2⟩ := rejectHandler_balances rid r s
    exact ⟨by rw [show (applyOp (.reject rid r) s).driverBalance
        = (rejectHandler rid r s).2.driverBalance from rfl, h1]; exact h.1,
      by rw [show (applyOp (.reject rid r) s).restaurantBalance
        = (rejectHandler rid r s).2.restaurantBalance from rfl, h2]; exact h.2⟩

/-- C1: every wallet-mutating public operation preserves non-negative
wallet balances: starting from a state in which every driver and
restaurant wallet balance is ≥ 0, after any sequence of add-balance,
withdrawal-request creation, withdrawal approval and withdrawal rejection
operations every wallet balance is still ≥ 0. -/
theorem wallet_balance_nonneg_invariant (ops : List WalletOp) (s : ServerState)
    (h : WalletsNonneg s) : WalletsNonneg (applyOps ops s) := by
  induction ops generalizing s with
  | nil => exact h
  | cons op rest ih => exact ih (applyOp op s) (walletsNonneg_applyOp op s h)

/-- Initial state: all wallets empty, no requests, nothing settled. -/
def initState : ServerState :=
  { driverBalance := fun _ => 0
    restaurantBalance := fun _ => 0
    requests := fun _ => none
    nextId := 0
    companyBalance := 0
    settledOrders := [] }

/-- Witness for C1 at a concrete operation sequence from the empty state. -/
theorem wallet_balance_nonneg_invariant_witness :
    WalletsNonneg initState ∧
    WalletsNonneg (applyOps
      [WalletOp.addBalance "d1" (some 70),
       WalletOp.createWithdrawal
         { entityType := "driver", entityId := "d1", amount := some 50,
           accountNumber := "111", bankName := "b", accountHolder := "h",
           requestedBy := "d1" },
       WalletOp.approve "wr-0" "admin",
       WalletOp.reject "wr-1" "late"] initState) := by
  have h0 : WalletsNonneg initState := ⟨fun _ => le_refl 0, fun _ => le_refl 0⟩
  exact ⟨h0, wallet_balance_nonneg_invariant _ initState h0⟩

/-- C2: approving a withdrawal request re-checks at approval time that the
wallet balance is at least the requested amount: for a pending request of a
driver or restaurant entity, if the balance is sufficient the wallet is
debited by the amount and the request is marked approved; if insufficient
the operation fails with "Insufficient balance" and no wallet is
debited. -/
theorem approve_rechecks_balance (s : ServerState) (requestId approvedBy : String)
    (req : WithdrawalRequest) (hreq : s.requests requestId = some req)
    (hpend : req.status = "pending")
    (hty : req.entityType = "driver" ∨ req.entityType = "restaurant") :
    (req.amount ≤ entityBalance s req.entityType req.entityId →
      entityBalance (approveHandler requestId approvedBy s).2 req.entityType req.entityId
          = entityBalance s req.entityType req.entityId - req.amount ∧
      Option.map (fun r => r.status)
          ((approveHandler requestId approvedBy s).2.requests requestId) = some "approved") ∧
    (entityBalance s req.entityType req.entityId < req.amount →
      (approveHandler requestId approvedBy s).1.error = some "Insufficient balance" ∧
      (approveHandler requestId approvedBy s).2.driverBalance = s.driverBalance ∧
      (approveHandler requestId approvedBy s).2.restaurantBalance = s.restaurantBalance) := by
  have happ : approveWithdrawalRequest requestId approvedBy s =
      .ok ({ req with status := "approved", approvedBy := some approvedBy },
        { s with
          requests :=
            Function.update s.requests requestId
              (some { req with status := "approved", approvedBy := some approvedBy }) }) := by
    unfold approveWithdrawalRequest
    rw [hreq]
    simp [hpend]
  rcases hty with h | h
  · constructor
    · intro hle
      have hnl : ¬ s.driverBalance req.entityId < req.amount := by
        simp only [entityBalance, h, if_pos] at hle
        simpa using not_lt.mpr hle
      simp [approveHandler, happ, entityBalance, h, deductDriverWalletBalance, hnl,
        Function.update_same]
    · intro hlt
      have hl : s.driverBalance req.entityId < req.amount := by
        simpa [entityBalance, h] using hlt
      simp [approveHandler, happ, deductDriverWalletBalance, hl, h]
  · constructor
    · intro hle
      have hnl : ¬ s.restaurantBalance req.entityId < req.amount := by
        simp only [entityBalance, h, if_pos] at hle
        simpa using not_lt.mpr hle
      simp [approveHandler, happ, entityBalance, h, deductRestaurantWalletBalance, hnl,
        Function.update_same]
    · intro hlt
      have hl : s.restaurantBalance req.entityId < req.amount := by
        simpa [entityBalance, h] using hlt
      simp [approveHandler, happ, deductRestaurantWalletBalance, hl, h]

/-- Pending 50-unit driver withdrawal request used by the C2 witness. -/
def reqC2 : WithdrawalRequest :=
  { entityType := "driver", entityId := "d1", amount := 50, status := "pending",
    accountNumber := "111", bankName := "b", accountHolder := "h",
    requestedBy := "d1", approvedBy := none, rejectionReason := none }

/-- State with a 70-unit driver wallet and the pending request, for the C2
witness. -/
def sC2 : ServerState :=
  { driverBalance := Function.update (fun _ => 0) "d1" 70
    restaurantBalance := fun _ => 0
    requests := Function.update (fun _ => none) "r1" (some reqC2)
    nextId := 0
    companyBalance := 0
    settledOrders := [] }

/-- Witness for C2: approving the pending 50-unit request against a 70-unit
wallet debits the wallet to 20 and marks the request approved. -/
theorem approve_rechecks_balance_witness :
    sC2.requests "r1" = some reqC2 ∧ reqC2.status = "pending" ∧
    reqC2.amount ≤ entityBalance sC2 reqC2.entityType reqC2.entityId ∧
    (entityBalance (approveHandler "r1" "admin" sC2).2 reqC2.entityType reqC2.entityId
        = entityBalance sC2 reqC2.entityType reqC2.entityId - reqC2.amount ∧
      Option.map (fun r => r.status)
        ((approveHandler "r1" "admin" sC2).2.requests "r1") = some "approved") := by
  refine ⟨by decide, rfl, by decide, ?_⟩
  exact (approve_rechecks_balance sC2 "r1" "admin" reqC2 (by decide) rfl
    (Or.inl rfl)).1 (by decide)

/-- C3: a withdrawal-request creation with a positive amount for a driver
or restaurant entity answers 400 "Insufficient balance" and changes
nothing when the amount exceeds the wallet balance at request time, and
otherwise answers 201 having stored the request with status "pending". -/
theorem create_checks_balance (b : WithdrawalBody) (a : ℚ) (s : ServerState)
    (hamt : b.amount = some a) (hpos : 0 < a)
    (hty : b.entityType = "driver" ∨ b.entityType = "restaurant") :
    (entityBalance s b.entityType b.entityId < a →
      createWithdrawalHandler b s =
        ({ status := 400, error := some "Insufficient balance" }, s)) ∧
    (a ≤ entityBalance s b.entityType b.entityId →
      (createWithdrawalHandler b s).1.status = 201 ∧
      (createWithdrawalHandler b s).2.requests (freshRequestId s) = some
        { entityType := b.entityType, entityId := b.entityId, amount := a,
          status := "pending", accountNumber := b.accountNumber,
          bankName := b.bankName, accountHolder := b.accountHolder,
          requestedBy := b.requestedBy, approvedBy := none,
          rejectionReason := none }) := by
  constructor
  · intro hlt
    rcases hty with h | h
    · have hl : s.driverBalance b.entityId < a := by
        simpa [entityBalance, h] using hlt
      simp [createWithdrawalHandler, hamt, not_le.mpr hpos, h, hl]
    · have hl : s.restaurantBalance b.entityId < a := by
        simpa [entityBalance, h] using hlt
      simp [createWithdrawalHandler, hamt, not_le.mpr hpos, h, hl]
  · intro hle
    rcases hty with h | h
    · have hnl : ¬ s.driverBalance b.entityId < a := by
        simp only [entityBalance, h, if_pos] at hle
        simpa using not_lt.mpr hle
      simp [createWithdrawalHandler, hamt, not_le.mpr hpos, h, hnl,
        createWithdrawalRequest, Function.update_same]
    · have hnl : ¬ s.restaurantBalance b.entityId < a := by
        simp only [entityBalance, h, if_pos] at hle
        simpa using not_lt.mpr hle
      simp [createWithdrawalHandler, hamt, not_le.mpr hpos, h, hnl,
        createWithdrawalRequest, Function.update_same]

/-- Request body used by the C3 witness: a driver asking to withdraw 80. -/
def bC3 : WithdrawalBody :=
  { entityType := "driver", entityId := "d1", amount := some 80,
    accountNumber := "111", bankName := "b", accountHolder := "h",
    requestedBy := "d1" }

/-- State with a 30-unit driver wallet for the C3 witness. -/
def sC3 : ServerState :=
  { driverBalance := Function.update (fun _ => 0) "d1" 30
    restaurantBalance := fun _ => 0
    requests := fun _ => none
    nextId := 0
    companyBalance := 0
    settledOrders := [] }

/-- Witness for C3: asking to withdraw 80 from a 30-unit wallet answers
400 "Insufficient balance" and leaves the state unchanged. -/
theorem create_checks_balance_witness :
    bC3.amount = some 80 ∧ (0:ℚ) < 80 ∧
    entityBalance sC3 bC3.entityType bC3.entityId < 80 ∧
    createWithdrawalHandler bC3 sC3 =
      ({ status := 400, error := some "Insufficient balance" }, sC3) := by
  refine ⟨rfl, by norm_num, by decide, ?_⟩
  exact (create_checks_balance bC3 80 sC3 rfl (by norm_num) (Or.inl rfl)).1 (by decide)

/-- C4: rejecting a withdrawal request changes no wallet balance, for
every request id, reason and state; and when the request exists and is
pending it is marked rejected with the given reason recorded. -/
theorem reject_marks_and_preserves_wallets (requestId reason : String) (s : ServerState) :
    ((rejectHandler requestId reason s).2.driverBalance = s.driverBalance ∧
     (rejectHandler requestId reason s).2.restaurantBalance = s.restaurantBalance) ∧
    (∀ req, s.requests requestId = some req → req.status = "pending" →
      (rejectHandler requestId reason s).2.requests requestId =
        some { req with status := "rejected", rejectionReason := some reason }) := by
  refine ⟨rejectHandler_balances requestId reason s, ?_⟩
  intro req hreq hpend
  unfold rejectHandler rejectWithdrawalRequest
  simp [hreq, hpend, Function.update_same]

/-- Pending 40-unit restaurant withdrawal request for the C4 witness. -/
def reqC4 : WithdrawalRequest :=
  { entityType := "restaurant", entityId := "rest1", amount := 40,
    status := "pending", accountNumber := "222", bankName := "b",
    accountHolder := "h", requestedBy := "rest1", approvedBy := none,
    rejectionReason := none }

/-- State holding the pending request and a 100-unit restaurant wallet for
the C4 witness. -/
def sC4 : ServerState :=
  { driverBalance := fun _ => 0
    restaurantBalance := Function.update (fun _ => 0) "rest1" 100
    requests := Function.update (fun _ => none) "r4" (some reqC4)
    nextId := 0
    companyBalance := 0
    settledOrders := [] }

/-- Witness for C4: rejecting the pending request records the reason and
leaves every wallet untouched. -/
theorem reject_marks_and_preserves_wallets_witness :
    sC4.requests "r4" = some reqC4 ∧ reqC4.status = "pending" ∧
    ((rejectHandler "r4" "bad bank details" sC4).2.driverBalance = sC4.driverBalance ∧
     (rejectHandler "r4" "bad bank details" sC4).2.restaurantBalance
        = sC4.restaurantBalance) ∧
    (rejectHandler "r4" "bad bank details" sC4).2.requests "r4" =
      some { reqC4 with
             status := "rejected"
             rejectionReason := some "bad bank details" } := by
  have h := reject_marks_and_preserves_wallets "r4" "bad bank details" sC4
  exact ⟨by decide, rfl, h.1, h.2 reqC4 (by decide) rfl⟩

/-- C5: a withdrawal request never leaves a terminal state: applying the
approve or the reject endpoint to a request whose status is already
"rejected" or already "approved" leaves the whole server state — request
statuses and wallet balances included — unchanged. -/
theorem terminal_states_frozen (s : ServerState) (requestId : String)
    (req : WithdrawalRequest) (hreq : s.requests requestId = some req)
    (hterm : req.status = "rejected" ∨ req.status = "approved")
    (approvedBy reason : String) :
    (approveHandler requestId approvedBy s).2 = s ∧
    (rejectHandler requestId reason s).2 = s := by
  have hne : ¬ req.status = "pending" := by
    rcases hterm with h | h <;> rw [h] <;> decide
  constructor
  · unfold approveHandler approveWithdrawalRequest
    simp [hreq, hne]
  · unfold rejectHandler rejectWithdrawalRequest
    simp [hreq, hne]

/-- An already-rejected 25-unit driver request for the C5 witness. -/
def reqC5 : WithdrawalRequest :=
  { entityType := "driver", entityId := "d5", amount := 25,
    status := "rejected", accountNumber := "555", bankName := "b",
    accountHolder := "h", requestedBy := "d5", approvedBy := none,
    rejectionReason := some "first refusal" }

/-- State holding the rejected request and a funded wallet for the C5
witness. -/
def sC5 : ServerState :=
  { driverBalance := Function.update (fun _ => 0) "d5" 200
    restaurantBalance := fun _ => 0
    requests := Function.update (fun _ => none) "r5" (some reqC5)
    nextId := 0
    companyBalance := 0
    settledOrders := [] }

/-- Witness for C5: re-approving or re-rejecting the already-rejected
request changes nothing. -/
theorem terminal_states_frozen_witness :
    sC5.requests "r5" = some reqC5 ∧ reqC5.status = "rejected" ∧
    (approveHandler "r5" "admin" sC5).2 = sC5 ∧
    (rejectHandler "r5" "again" sC5).2 = sC5 := by
  have h := terminal_states_frozen sC5 "r5" reqC5 (by decide) (Or.inl rfl) "admin" "again"
  exact ⟨by decide, rfl, h.1, h.2⟩

/-- C6: both money-accepting endpoints reject a missing, zero or negative
amount with 400 "Invalid amount" and leave the whole state — wallets and
withdrawal requests — unchanged, while add-balance with a positive amount
credits the wallet of the driver by exactly that amount. -/
theorem invalid_amount_rejected (driverId : String) (amt : Option ℚ)
    (b : WithdrawalBody) (s : ServerState) :
    ((∀ a, amt = some a → a ≤ 0) →
      addBalanceHandler driverId amt s =
        ({ status := 400, error := some "Invalid amount" }, s)) ∧
    ((∀ a, b.amount = some a → a ≤ 0) →
      createWithdrawalHandler b s =
        ({ status := 400, error := some "Invalid amount" }, s)) ∧
    (∀ a, amt = some a → 0 < a →
      (addBalanceHandler driverId amt s).2.driverBalance driverId =
        s.driverBalance driverId + a) := by
  refine ⟨?_, ?_, ?_⟩
  · intro hinv
    cases amt with
    | none => rfl
    | some a => simp [addBalanceHandler, hinv a rfl]
  · intro hinv
    cases hb : b.amount with
    | none => simp [createWithdrawalHandler, hb]
    | some a => simp [createWithdrawalHandler, hb, hinv a hb]
  · intro a ha hpos
    subst ha
    simp [addBalanceHandler, addDriverWalletBalance, not_le.mpr hpos,
      Function.update_same]

/-- Withdrawal body with a negative amount for the C6 witness. -/
def bC6 : WithdrawalBody :=
  { entityType := "driver", entityId := "d6", amount := some (-5),
    accountNumber := "666", bankName := "b", accountHolder := "h",
    requestedBy := "d6" }

/-- Witness for C6: a negative withdrawal amount and a missing add-balance
amount are both rejected with 400 leaving the empty state unchanged, and
adding 12 credits the wallet from 0 to 12. -/
theorem invalid_amount_rejected_witness :
    (addBalanceHandler "d6" none initState =
      ({ status := 400, error := some "Invalid amount" }, initState)) ∧
    (createWithdrawalHandler bC6 initState =
      ({ status := 400, error := some "Invalid amount" }, initState)) ∧
    (addBalanceHandler "d6" (some 12) initState).2.driverBalance "d6" =
      initState.driverBalance "d6" + 12 := by
  have h1 := invalid_amount_rejected "d6" none bC6 initState
  have h2 := invalid_amount_rejected "d6" (some 12) bC6 initState
  refine ⟨h1.1 (fun a ha => by simp at ha), ?_, ?_⟩
  · exact h1.2.1 (fun a ha => by
      have : a = -5 := by simpa [bC6, eq_comm] using ha
      rw [this]
      norm_num)
  · exact h2.2.2 12 rfl (by norm_num)

lemma settleOrder_of_mem {o : Order} {t : ServerState} (h : o.id ∈ t.settledOrders) :
    settleOrder o t = (SettleResult.alreadySettled, t) := by
  unfold settleOrder
  rw [if_pos h]

lemma settleOrder_settled_mem (o : Order) (s : ServerState) :
    o.id ∈ (settleOrder o s).2.settledOrders := by
  unfold settleOrder
  by_cases h : o.id ∈ s.settledOrders
  · rw [if_pos h]
    exact h
  · rw [if_neg h]
    exact List.mem_cons_self _ _

/-- C7: order settlement is idempotent per order id: settling the same
order a second time is signalled AlreadySettled and leaves the driver
wallet, restaurant wallet and company accrual balances — indeed the whole
state — exactly as after the first call. -/
theorem settle_idempotent (o : Order) (s : ServerState) :
    (settleOrder o (settleOrder o s).2).1 = SettleResult.alreadySettled ∧
    (settleOrder o (settleOrder o s).2).2.driverBalance o.driverId
        = (settleOrder o s).2.driverBalance o.driverId ∧
    (settleOrder o (settleOrder o s).2).2.restaurantBalance o.restaurantId
        = (settleOrder o s).2.restaurantBalance o.restaurantId ∧
    (settleOrder o (settleOrder o s).2).2.companyBalance
        = (settleOrder o s).2.companyBalance := by
  have h := settleOrder_of_mem (settleOrder_settled_mem o s)
  rw [h]
  exact ⟨rfl, rfl, rfl, rfl⟩

/-- C8: whenever the free-delivery threshold of the resolved setting is
positive and the order subtotal reaches it, the quote is a free delivery:
isFreeDelivery is true, the billed fee is 0, and the originally computed
(clamped) fee is retained for display. -/
theorem free_delivery_above_threshold (distance subtotal : ℚ) (setting : FeeSetting)
    (zones : List DeliveryZone)
    (hth : 0 < setting.freeDeliveryThreshold)
    (hsub : setting.freeDeliveryThreshold ≤ subtotal) :
    (calculateDeliveryFee distance setting zones subtotal).isFreeDelivery = true ∧
    (calculateDeliveryFee distance setting zones subtotal).fee = 0 ∧
    (calculateDeliveryFee distance setting zones subtotal).displayFee =
      clampFee (setting.baseFee + distance * setting.perKmFee)
        setting.minFee setting.maxFee := by
  unfold calculateDeliveryFee
  rw [if_pos ⟨hth, hsub⟩]
  exact ⟨rfl, rfl, rfl⟩

/-- Concrete free-delivery scenario of the spec: perKm 50, base 0, min 0,
max 1000, threshold 3000. -/
def settingC8 : FeeSetting :=
  { baseFee := 0, perKmFee := 50, minFee := 0, maxFee := 1000,
    freeDeliveryThreshold := 3000 }

/-- Witness for C8, the spec.md §8 scenario: 5 km, subtotal 3500 ≥
threshold 3000 > 0 gives a free delivery with billed fee 0 and the
original 250 retained for display. -/
theorem free_delivery_above_threshold_witness :
    (0:ℚ) < settingC8.freeDeliveryThreshold ∧
    settingC8.freeDeliveryThreshold ≤ (3500:ℚ) ∧
    (calculateDeliveryFee 5 settingC8 [] 3500).isFreeDelivery = true ∧
    (calculateDeliveryFee 5 settingC8 [] 3500).fee = 0 ∧
    (calculateDeliveryFee 5 settingC8 [] 3500).displayFee = 250 := by
  have h := free_delivery_above_threshold 5 3500 settingC8 [] (by norm_num [settingC8])
    (by norm_num [settingC8])
  refine ⟨by norm_num [settingC8], by norm_num [settingC8], h.1, h.2.1, ?_⟩
  rw [h.2.2]
  norm_num [settingC8, clampFee]

/-- C9: a withdrawal-request creation with a positive amount and an
entityType that is neither "driver" nor "restaurant" skips the balance
check entirely: whatever the wallet balances, the request is stored with
status "pending" and the response is 201. -/
theorem create_skips_check_for_unknown_entity (b : WithdrawalBody) (a : ℚ)
    (s : ServerState) (hamt : b.amount = some a) (hpos : 0 < a)
    (hd : b.entityType ≠ "driver") (hr : b.entityType ≠ "restaurant") :
    (createWithdrawalHandler b s).1.status = 201 ∧
    (createWithdrawalHandler b s).2.requests (freshRequestId s) = some
      { entityType := b.entityType, entityId := b.entityId, amount := a,
        status := "pending", accountNumber := b.accountNumber,
        bankName := b.bankName, accountHolder := b.accountHolder,
        requestedBy := b.requestedBy, approvedBy := none,
        rejectionReason := none } := by
  simp [createWithdrawalHandler, hamt, not_le.mpr hpos, hd, hr,
    createWithdrawalRequest, Function.update_same]

/-- Withdrawal body with entityType "company" for the C9 witness. -/
def bC9 : WithdrawalBody :=
  { entityType := "company", entityId := "c1", amount := some 1000000,
    accountNumber := "999", bankName := "b", accountHolder := "h",
    requestedBy := "c1" }

/-- Witness for C9: a million-unit withdrawal for entityType "company" is
created pending with 201 from the empty state, where every wallet is 0. -/
theorem create_skips_check_for_unknown_entity_witness :
    bC9.amount = some 1000000 ∧ (0:ℚ) < 1000000 ∧
    (createWithdrawalHandler bC9 initState).1.status = 201 ∧
    (createWithdrawalHandler bC9 initState).2.requests (freshRequestId initState) = some
      { entityType := "company", entityId := "c1", amount := 1000000,
        status := "pending", accountNumber := "999", bankName := "b",
        accountHolder := "h", requestedBy := "c1", approvedBy := none,
        rejectionReason := none } := by
  have h := create_skips_check_for_unknown_entity bC9 1000000 initState rfl
    (by norm_num) (by decide) (by decide)
  exact ⟨rfl, by norm_num, h.1, h.2⟩

/-- Pending 100-unit driver request for the C10 scenario. -/
def reqC10 : WithdrawalRequest :=
  { entityType := "driver", entityId := "d1", amount := 100,
    status := "pending", accountNumber := "123", bankName := "bank",
    accountHolder := "holder", requestedBy := "d1", approvedBy := none,
    rejectionReason := none }

/-- State for the C10 scenario: the pending 100-unit request against a
wallet whose balance has dropped to 50 since the request was created. -/
def sC10 : ServerState :=
  { driverBalance := Function.update (fun _ => 0) "d1" 50
    restaurantBalance := fun _ => 0
    requests := Function.update (fun _ => none) "r1" (some reqC10)
    nextId := 0
    companyBalance := 0
    settledOrders := [] }

/-- C10: the approve endpoint is not atomic: it marks the request approved
before debiting the wallet, so when the debit fails (here: the balance
dropped to 50 below the requested 100) the endpoint answers 500 while the
stored request is left in status "approved" and no debit was applied. -/
theorem approve_not_atomic :
    (approveHandler "r1" "admin" sC10).1.status = 500 ∧
    (approveHandler "r1" "admin" sC10).1.error = some "Insufficient balance" ∧
    Option.map (fun r => r.status)
      ((approveHandler "r1" "admin" sC10).2.requests "r1") = some "approved" ∧
    (approveHandler "r1" "admin" sC10).2.driverBalance "d1"
      = sC10.driverBalance "d1" := by
  refine ⟨?_, ?_, ?_, ?_⟩ <;> decide

end Sareeone
